import Mathlib

/-!
Verification development for the quantum_simulator_backend Flask application
(src/quantum_simulator_backend/app.py).  The request handlers are embedded
shallowly: the external collaborators (the QASM parser, the transpiler, the
remote runtime service and the local Aer engine) appear as function
parameters, while everything the application itself computes (circuit
normalization, backend selection, result shaping, response construction) is
translated directly from the source.
-/

/-- A classical register of the circuit: a name and a bit count
(qiskit ClassicalRegister, as used by app.py). -/
structure ClassicalRegister where
  name : String
  size : Nat
deriving DecidableEq, Repr

/-- One instruction of a circuit: either a named gate over some qubits
(this also covers barriers) or a measurement of one qubit into one
classical bit, identified by its global classical-bit index. -/
inductive Op where
  | gate (name : String) (qubits : List Nat)
  | measure (qubit : Nat) (clbit : Nat)
deriving DecidableEq, Repr

/-- A parsed circuit as app.py consumes it: a qubit count, the ordered
classical registers, and the ordered instruction list. -/
structure Circuit where
  numQubits : Nat
  cregs : List ClassicalRegister
  ops : List Op
deriving DecidableEq, Repr

/-- circuit.num_clbits: total size of all classical registers. -/
def Circuit.numClbits (c : Circuit) : Nat :=
  c.cregs.foldl (fun a r => a + r.size) 0

/-- Whether an instruction is a measurement (instr.operation.name == the
measure name, app.py line 150). -/
def Op.isMeasure : Op → Bool
  | .measure _ _ => true
  | _ => false

/-- has_measure_ops_in_qasm (app.py line 150): any instruction of the
circuit is a measurement. -/
def hasMeasureOps (c : Circuit) : Bool :=
  c.ops.any Op.isMeasure

/-- Qiskit QuantumCircuit.measure_all with inplace=True and the default
add_bits=True, as called at app.py line 168.  Per the qiskit documentation
this adds a barrier over all qubits, then a fresh ClassicalRegister named
meas whose size is the qubit count, and measures qubit i into bit i of that
new register (global classical index numClbits + i).  It does not reuse any
classical bits that already exist on the circuit. -/
def measureAll (c : Circuit) : Circuit :=
  { c with
    cregs := c.cregs ++ [ClassicalRegister.mk "meas" c.numQubits],
    ops := c.ops ++ Op.gate "barrier" (List.range c.numQubits) ::
      (List.range c.numQubits).map (fun i => Op.measure i (c.numClbits + i)) }

/-- One step of the max_clbit_measured scan of app.py lines 176-181. -/
def maxStep (acc : Int) (op : Op) : Int :=
  match op with
  | Op.measure _ cl => if (cl : Int) > acc then (cl : Int) else acc
  | _ => acc

/-- max_clbit_measured (app.py lines 176-181): the largest classical-bit
index targeted by a measurement, starting from the sentinel -1. -/
def maxClbitMeasured (c : Circuit) : Int :=
  c.ops.foldl maxStep (-1)

/-- The warning condition of app.py line 182: a measurement exists and the
circuit has no more classical bits than the largest measured index. -/
def measureWarning (c : Circuit) : Bool :=
  decide (maxClbitMeasured c ≠ -1) && decide ((c.numClbits : Int) ≤ maxClbitMeasured c)

/-- The measurement-handling block of app.py lines 148-185.  Returns the
circuit that continues into backend selection together with the warning
flag.  When the circuit has no measurement and at least one qubit: if it has
fewer classical bits than qubits, every classical register is removed and a
register c_auto sized to the qubit count is added (lines 156-166); then
measure_all is applied (line 168).  When the circuit already has
measurements it is passed through unchanged and only the warning of line 182
is computed. -/
def normalizeForSampling (c : Circuit) : Circuit × Bool :=
  if hasMeasureOps c then
    (c, measureWarning c)
  else if c.numQubits > 0 then
    (measureAll
      (if c.numClbits < c.numQubits then
        { c with cregs := [ClassicalRegister.mk "c_auto" c.numQubits] }
      else c), false)
  else
    (c, false)

/-- Python int() applied to an exact rational value: truncation toward
zero, as in int(value * shots) at app.py lines 218 and 220. -/
def pyInt (q : ℚ) : ℤ := Int.tdiv q.num (q.den : ℤ)

/-- The Python format specification 0{width}b used at app.py line 218:
binary digits of k, left-padded with zeros to a minimum width. -/
def formatBin (k width : Nat) : String :=
  String.mk (List.replicate (width - (Nat.toDigits 2 k).length) '0' ++ Nat.toDigits 2 k)

/-- The transpiled circuit as the handler uses it: only its classical-bit
count is consulted (app.py line 216). -/
structure TranspiledCircuit where
  numClbits : Nat
deriving DecidableEq, Repr

/-- The shape of a remote job result as inspected at app.py lines 214-225:
an optional quasi_dists attribute (a list of distributions, each a mapping
from integer basis state to quasi-probability), an optional get_counts
method (modelled by the counts it would return for the transpiled circuit),
and an optional list-of-data-with-counts shape. -/
structure RemoteResult where
  quasiDists : Option (List (List (Nat × ℚ)))
  countsFromGetCounts : Option (List (String × Int))
  countsFromListData : Option (List (String × Int))
deriving DecidableEq, Repr

/-- The remote runtime service as the handler calls it: backend resolution
by name (service.backend, line 194), the operational-simulator listing
(service.backends, line 200), transpilation toward a named backend
(line 206), and job submission plus synchronous result retrieval
(lines 210-212), each of which can raise. -/
structure RemoteService where
  resolveBackend : String → Except String String
  operationalSims : Except String (List String)
  transpileTo : Circuit → String → Except String TranspiledCircuit
  runJob : TranspiledCircuit → Nat → Except String (String × RemoteResult)

/-- Backend resolution, app.py lines 193-203: try the requested name; on
failure list the operational simulators (which can itself raise), raise if
the list is empty, otherwise take its first element. -/
def resolveBackendName (svc : RemoteService) (requestedName : String) : Except String String :=
  match svc.resolveBackend requestedName with
  | Except.ok n => Except.ok n
  | Except.error _ =>
    match svc.operationalSims with
    | Except.error e => Except.error e
    | Except.ok [] => Except.error "No IBM simulators available now, despite earlier check."
    | Except.ok (s :: _) => Except.ok s

/-- Result shaping for a remote result, app.py lines 213-225: if a
non-empty quasi_dists list is present, its first distribution is converted
entry by entry, the key rendered in binary with minimum width equal to the
transpiled classical-bit count (or the qubit count when that is zero, line
216) unless that width is also zero, in which case the key is rendered in
decimal; the value is the quasi-probability times the shot count truncated
by int().  Otherwise counts come from get_counts, then from the list shape,
and default to empty. -/
def shapeRemoteCounts (result : RemoteResult) (transpiledClbits numQubits shots : Nat) :
    List (String × Int) :=
  match result.quasiDists with
  | some (dist :: _) =>
    if (if transpiledClbits > 0 then transpiledClbits else numQubits) > 0 then
      dist.map (fun kv =>
        (formatBin kv.1 (if transpiledClbits > 0 then transpiledClbits else numQubits),
         pyInt (kv.2 * (shots : ℚ))))
    else
      dist.map (fun kv => (Nat.repr kv.1, pyInt (kv.2 * (shots : ℚ))))
  | _ =>
    match result.countsFromGetCounts with
    | some cs => cs
    | none =>
      match result.countsFromListData with
      | some cs => cs
      | none => []

/-- The JSON success payload of the /simulate endpoint. -/
structure SimPayload where
  message : String
  jobId : Option String
  backendUsed : String
  shots : Nat
  counts : List (String × Int)
deriving DecidableEq, Repr

/-- A /simulate response: 200 with a payload, 400 with an error field, or
500 with an error field. -/
inductive SimResponse where
  | ok (payload : SimPayload)
  | badRequest (error : String)
  | serverError (error : String)
deriving DecidableEq, Repr

/-- The HTTP status of a /simulate response. -/
def SimResponse.status : SimResponse → Nat
  | .ok _ => 200
  | .badRequest _ => 400
  | .serverError _ => 500

/-- Whether the response body carries an error field. -/
def SimResponse.hasErrorField : SimResponse → Bool
  | .ok _ => false
  | .badRequest _ => true
  | .serverError _ => true

/-- The whole remote attempt, app.py lines 189-229 (the body of the outer
try): resolve a backend name, transpile, submit and retrieve, shape the
counts, and build the IBM Quantum success response.  An error anywhere is
the outer exception that makes the handler fall through to local
execution. -/
def remoteBlock (svc : RemoteService) (circuit : Circuit) (requestedName : String)
    (shots : Nat) : Except String SimResponse :=
  match resolveBackendName svc requestedName with
  | Except.error e => Except.error e
  | Except.ok backendName =>
    match svc.transpileTo circuit backendName with
    | Except.error e => Except.error e
    | Except.ok transpiled =>
      match svc.runJob transpiled shots with
      | Except.error e => Except.error e
      | Except.ok jr =>
        Except.ok (SimResponse.ok
          { message := "Simulation successful (IBM Quantum)!",
            jobId := some jr.1,
            backendUsed := backendName,
            shots := shots,
            counts := shapeRemoteCounts jr.2 transpiled.numClbits circuit.numQubits shots })

/-- Local Aer execution, app.py lines 237-263: run the circuit, return the
success response naming local_aer_simulator, or a 500 whose error field
carries the underlying message. -/
def localPath (localRun : Circuit → Nat → Except String (List (String × Int)))
    (circuit : Circuit) (shots : Nat) : SimResponse :=
  match localRun circuit shots with
  | Except.ok counts =>
    SimResponse.ok
      { message := "Simulation successful (Local Aer)!",
        jobId := none,
        backendUsed := "local_aer_simulator",
        shots := shots,
        counts := counts }
  | Except.error e => SimResponse.serverError ("Error during local Aer simulation: " ++ e)

/-- The process-wide flags read by the handler at app.py line 188:
service is not None, and ibm_simulators_available. -/
structure Config where
  serviceConfigured : Bool
  simsAvailable : Bool
deriving DecidableEq, Repr

/-- The parsed JSON body of a /simulate request. -/
structure ReqBody where
  qasm : Option String
  shots : Option Nat
  backend : Option String
deriving DecidableEq, Repr

/-- The /simulate handler, app.py lines 129-263.  A missing body or missing
qasm field gives 400 (lines 131-133); shots defaults to 1024 and the
requested backend to ibmq_qasm_simulator (lines 136-137); a parse failure
gives 400 (lines 139-146); the circuit is normalized (lines 148-185); when
the service is configured and simulators are flagged available the remote
block runs and its error falls through to local execution (lines 188-233);
otherwise local execution runs directly (lines 235-263). -/
def simulate_circuit (cfg : Config) (parse : String → Except String Circuit)
    (svc : RemoteService)
    (localRun : Circuit → Nat → Except String (List (String × Int)))
    (req : Option ReqBody) : SimResponse :=
  match req with
  | none => SimResponse.badRequest "Missing \x27qasm\x27 in request body"
  | some body =>
    match body.qasm with
    | none => SimResponse.badRequest "Missing \x27qasm\x27 in request body"
    | some qasm =>
      match parse qasm with
      | Except.error e => SimResponse.badRequest ("Invalid QASM input: " ++ e)
      | Except.ok circuit0 =>
        if cfg.serviceConfigured && cfg.simsAvailable then
          match remoteBlock svc (normalizeForSampling circuit0).1
              (body.backend.getD "ibmq_qasm_simulator") (body.shots.getD 1024) with
          | Except.ok resp => resp
          | Except.error _ =>
            localPath localRun (normalizeForSampling circuit0).1 (body.shots.getD 1024)
        else
          localPath localRun (normalizeForSampling circuit0).1 (body.shots.getD 1024)

/-- Rounding to the nearest integer (half rounds up).  This is the reading
of the word rounded in the result-shaping description; the code itself
truncates instead. -/
def roundNearest (q : ℚ) : ℤ := Int.floor (q + 1 / 2)

/-- The remote counts conversion exactly as the specification words it:
each entry (k, p) of the distribution becomes a counts entry whose key is k
as a binary string of width equal to the transpiled classical-bit count (or
the qubit count when that is zero) and whose value is p times the shot
count rounded to an integer count. -/
def claimedRemoteCounts (dist : List (Nat × ℚ)) (transpiledClbits numQubits shots : Nat) :
    List (String × Int) :=
  dist.map (fun kv =>
    (formatBin kv.1 (if transpiledClbits = 0 then numQubits else transpiledClbits),
     roundNearest (kv.2 * (shots : ℚ))))

/-- Removal of the trailing measurement instructions from a circuit. -/
def stripTrailingMeasurements (c : Circuit) : Circuit :=
  { c with ops := (c.ops.reverse.dropWhile Op.isMeasure).reverse }

/-- The parsed JSON body of a /get_statevector or /get_probabilities
request: only the qasm field is read. -/
structure SVBody where
  qasm : Option String
deriving DecidableEq, Repr

/-- The JSON success payload of /get_statevector: each amplitude is a
[real, imaginary] pair, in basis-state index order. -/
structure SVPayload where
  message : String
  backendUsed : String
  numQubits : Nat
  statevector : List (ℚ × ℚ)
deriving DecidableEq, Repr

/-- A /get_statevector response. -/
inductive SVResponse where
  | ok (payload : SVPayload)
  | badRequest (error : String)
  | serverError (error : String)
deriving DecidableEq, Repr

/-- The HTTP status of a /get_statevector response. -/
def SVResponse.status : SVResponse → Nat
  | .ok _ => 200
  | .badRequest _ => 400
  | .serverError _ => 500

/-- Whether the response body carries an error field. -/
def SVResponse.hasErrorField : SVResponse → Bool
  | .ok _ => false
  | .badRequest _ => true
  | .serverError _ => true

/-- The JSON success payload of /get_probabilities: a sparse mapping from
bitstring to probability. -/
structure ProbPayload where
  message : String
  backendUsed : String
  numQubits : Nat
  probabilities : List (String × ℚ)
deriving DecidableEq, Repr

/-- A /get_probabilities response. -/
inductive ProbResponse where
  | ok (payload : ProbPayload)
  | badRequest (error : String)
  | serverError (error : String)
deriving DecidableEq, Repr

/-- The HTTP status of a /get_probabilities response. -/
def ProbResponse.status : ProbResponse → Nat
  | .ok _ => 200
  | .badRequest _ => 400
  | .serverError _ => 500

/-- Whether the response body carries an error field. -/
def ProbResponse.hasErrorField : ProbResponse → Bool
  | .ok _ => false
  | .badRequest _ => true
  | .serverError _ => true

/-- Modelled from the spec: the /get_statevector handler exists only in the
three-endpoint variant of the application, which is not under src/.
Following sections 4.1, 4.4, 6 and 7 of the specification: a missing body or
missing qasm field gives 400 with an error field; an unparseable circuit
gives 400; all trailing measurement operations are stripped; a circuit with
zero qubits or more than the ceiling of 16 qubits gives 400; a computation
failure gives 500; otherwise 200 with the qubit count and the statevector
produced by the external engine. -/
def get_statevector (parse : String → Except String Circuit)
    (engine : Circuit → Except String (List (ℚ × ℚ))) (req : Option SVBody) : SVResponse :=
  match req with
  | none => SVResponse.badRequest "Missing \x27qasm\x27 in request body"
  | some body =>
    match body.qasm with
    | none => SVResponse.badRequest "Missing \x27qasm\x27 in request body"
    | some qasm =>
      match parse qasm with
      | Except.error e => SVResponse.badRequest ("Invalid QASM input: " ++ e)
      | Except.ok circuit0 =>
        if (stripTrailingMeasurements circuit0).numQubits = 0 ||
            (stripTrailingMeasurements circuit0).numQubits > 16 then
          SVResponse.badRequest "Circuit must have between 1 and 16 qubits"
        else
          match engine (stripTrailingMeasurements circuit0) with
          | Except.error e => SVResponse.serverError e
          | Except.ok sv =>
            SVResponse.ok
              { message := "Statevector computed successfully!",
                backendUsed := "local_aer_simulator",
                numQubits := (stripTrailingMeasurements circuit0).numQubits,
                statevector := sv }

/-- Modelled from the spec: the /get_probabilities handler exists only in
the three-endpoint variant of the application, which is not under src/.
Same contract as /get_statevector (specification sections 4.1, 4.4, 6, 7)
but it returns a sparse probability mapping instead. -/
def get_probabilities (parse : String → Except String Circuit)
    (engine : Circuit → Except String (List (String × ℚ))) (req : Option SVBody) : ProbResponse :=
  match req with
  | none => ProbResponse.badRequest "Missing \x27qasm\x27 in request body"
  | some body =>
    match body.qasm with
    | none => ProbResponse.badRequest "Missing \x27qasm\x27 in request body"
    | some qasm =>
      match parse qasm with
      | Except.error e => ProbResponse.badRequest ("Invalid QASM input: " ++ e)
      | Except.ok circuit0 =>
        if (stripTrailingMeasurements circuit0).numQubits = 0 ||
            (stripTrailingMeasurements circuit0).numQubits > 16 then
          ProbResponse.badRequest "Circuit must have between 1 and 16 qubits"
        else
          match engine (stripTrailingMeasurements circuit0) with
          | Except.error e => ProbResponse.serverError e
          | Except.ok pr =>
            ProbResponse.ok
              { message := "Probabilities computed successfully!",
                backendUsed := "local_aer_simulator",
                numQubits := (stripTrailingMeasurements circuit0).numQubits,
                probabilities := pr }

/-- The circuit of a QASM program with one qubit, no classical register, no
measurement, and a single Hadamard gate (for example
OPENQASM 2.0; qreg q[1]; h q[0];). -/
def exC2 : Circuit := { numQubits := 1, cregs := [], ops := [Op.gate "h" [0]] }

/-- A parser that accepts its input as that one-qubit circuit. -/
def parseExC2 : String → Except String Circuit := fun _ => Except.ok exC2

/-- A one-qubit circuit that already contains a measurement into its own
one-bit classical register. -/
def exMeas1 : Circuit :=
  { numQubits := 1, cregs := [ClassicalRegister.mk "c" 1], ops := [Op.measure 0 0] }

/-- A parser that accepts its input as that measured one-qubit circuit. -/
def parseMeas1 : String → Except String Circuit := fun _ => Except.ok exMeas1

/-- A one-qubit circuit measuring into classical-bit index 5 while carrying
only one classical bit. -/
def exWarn : Circuit :=
  { numQubits := 1, cregs := [ClassicalRegister.mk "c" 1], ops := [Op.measure 0 5] }

/-- A circuit declaring seventeen qubits. -/
def c17 : Circuit := { numQubits := 17, cregs := [], ops := [] }

/-- A parser that accepts its input as the seventeen-qubit circuit. -/
def parse17 : String → Except String Circuit := fun _ => Except.ok c17

/-- An amplitude-request body carrying a qasm field. -/
def bodyQ : SVBody := { qasm := some "q" }

/-- A statevector engine that always raises. -/
def svFail : Circuit → Except String (List (ℚ × ℚ)) := fun _ => Except.error "fail"

/-- A probability engine that always raises. -/
def prFail : Circuit → Except String (List (String × ℚ)) := fun _ => Except.error "fail"

/-- A local Aer run that succeeds with one counts entry. -/
def localOk : Circuit → Nat → Except String (List (String × Int)) :=
  fun _ _ => Except.ok [("1", 1024)]

/-- A local Aer run that raises. -/
def localBoom : Circuit → Nat → Except String (List (String × Int)) :=
  fun _ _ => Except.error "boom"

/-- A remote service on which every call raises: backend resolution fails
and listing the simulators hits a network error. -/
def svcDown : RemoteService :=
  { resolveBackend := fun _ => Except.error "resolution failed",
    operationalSims := Except.error "network error",
    transpileTo := fun _ _ => Except.error "unreachable",
    runJob := fun _ _ => Except.error "unreachable" }

/-- A remote result carrying one quasi-probability distribution assigning
7/10 to basis state 0. -/
def resQuasi : RemoteResult :=
  { quasiDists := some [[(0, (7 : ℚ)/10)]],
    countsFromGetCounts := none, countsFromListData := none }

/-- A remote service on which every step succeeds and whose job returns
that quasi-distribution result; the transpiled circuit has one classical
bit. -/
def svcQuasi : RemoteService :=
  { resolveBackend := fun _ => Except.ok "ibm_sim",
    operationalSims := Except.ok ["ibm_sim"],
    transpileTo := fun _ _ => Except.ok (TranspiledCircuit.mk 1),
    runJob := fun _ _ => Except.ok ("job1", resQuasi) }

/-- A remote result exposing none of the three counts shapes. -/
def resBare : RemoteResult :=
  { quasiDists := none, countsFromGetCounts := none, countsFromListData := none }

/-- A remote service whose job succeeds with that bare result. -/
def svcBare : RemoteService :=
  { resolveBackend := fun _ => Except.ok "ibm_sim",
    operationalSims := Except.ok ["ibm_sim"],
    transpileTo := fun _ _ => Except.ok (TranspiledCircuit.mk 2),
    runJob := fun _ _ => Except.ok ("job2", resBare) }

/-- A /simulate body with one shot, requesting the remote simulator. -/
def reqQuasi : ReqBody := { qasm := some "q", shots := some 1, backend := some "ibm_sim" }

/-- A /simulate body leaving shots and backend to their defaults. -/
def reqBare : ReqBody := { qasm := some "q", shots := none, backend := none }

/-- The normalization result preserves the qubit count: neither the
register replacement nor measure_all touches the quantum registers. -/
theorem normalizeForSampling_numQubits (c : Circuit) :
    (normalizeForSampling c).1.numQubits = c.numQubits := by
  unfold normalizeForSampling measureAll
  split
  · rfl
  · split
    · split <;> rfl
    · rfl

/-- One maxStep never decreases the accumulator. -/
theorem le_maxStep (acc : Int) (op : Op) : acc ≤ maxStep acc op := by
  cases op with
  | gate n qs => exact le_refl acc
  | measure q cl =>
    simp only [maxStep]
    split
    · omega
    · exact le_refl acc

/-- The fold computing max_clbit_measured never decreases its
accumulator. -/
theorem foldl_maxStep_le (ops : List Op) (acc : Int) : acc ≤ ops.foldl maxStep acc := by
  induction ops generalizing acc with
  | nil => exact le_refl acc
  | cons a l ih => exact le_trans (le_maxStep acc a) (ih (maxStep acc a))

/-- If some measurement occurs in the instruction list, the fold ends
nonnegative, whatever the accumulator. -/
theorem foldl_maxStep_nonneg (ops : List Op) (acc : Int)
    (h : ∃ q cl, Op.measure q cl ∈ ops) : 0 ≤ ops.foldl maxStep acc := by
  induction ops generalizing acc with
  | nil =>
    obtain ⟨q, cl, hm⟩ := h
    simp at hm
  | cons a l ih =>
    obtain ⟨q, cl, hm⟩ := h
    rcases List.mem_cons.mp hm with hhead | htail
    · have hstep : 0 ≤ maxStep acc a := by
        rw [← hhead]
        simp only [maxStep]
        split
        · omega
        · omega
      exact le_trans hstep (foldl_maxStep_le l (maxStep acc a))
    · exact ih (maxStep acc a) ⟨q, cl, htail⟩

/-- A circuit with a measurement has a nonnegative max_clbit_measured. -/
theorem maxClbitMeasured_nonneg (c : Circuit) (h : hasMeasureOps c = true) :
    0 ≤ maxClbitMeasured c := by
  unfold hasMeasureOps at h
  rw [List.any_eq_true] at h
  obtain ⟨op, hmem, hop⟩ := h
  cases op with
  | gate n qs => simp [Op.isMeasure] at hop
  | measure q cl => exact foldl_maxStep_nonneg c.ops (-1) ⟨q, cl, hmem⟩

/-- A successful remote block always produces an ok (HTTP 200) response:
every return inside the try of app.py lines 189-229 is the IBM Quantum
success payload. -/
theorem remoteBlock_ok_shape (svc : RemoteService) (circuit : Circuit)
    (requestedName : String) (shots : Nat) (resp : SimResponse)
    (h : remoteBlock svc circuit requestedName shots = Except.ok resp) :
    ∃ p, resp = SimResponse.ok p := by
  unfold remoteBlock at h
  cases h1 : resolveBackendName svc requestedName with
  | error e => simp only [h1] at h; cases h
  | ok backendName =>
    simp only [h1] at h
    cases h2 : svc.transpileTo circuit backendName with
    | error e => simp only [h2] at h; cases h
    | ok transpiled =>
      simp only [h2] at h
      cases h3 : svc.runJob transpiled shots with
      | error e => simp only [h3] at h; cases h
      | ok jr =>
        simp only [h3, Except.ok.injEq] at h
        exact ⟨_, h.symm⟩

/-- The local path answers 200 or 500, never 400: app.py lines 237-263
return either the Local Aer success payload or a 500. -/
theorem localPath_ne_badRequest
    (localRun : Circuit → Nat → Except String (List (String × Int)))
    (circuit : Circuit) (shots : Nat) (msg : String) :
    localPath localRun circuit shots ≠ SimResponse.badRequest msg := by
  unfold localPath
  cases localRun circuit shots with
  | ok counts => intro hcontra; cases hcontra
  | error e => intro hcontra; cases hcontra

/-- C2: at the failing input (one qubit, no classical register, no
measurement), the normalization of /simulate does not allocate exactly one
classical register measured into by every qubit: it allocates the register
c_auto of size 1 and then measure_all allocates a second register meas of
size 1, and the appended measurement targets global classical bit 1, the
bit of meas, not the bit of c_auto. -/
theorem normalizer_adds_two_registers_eval :
    (normalizeForSampling exC2).1.cregs =
      [ClassicalRegister.mk "c_auto" 1, ClassicalRegister.mk "meas" 1] ∧
    (normalizeForSampling exC2).1.ops =
      [Op.gate "h" [0], Op.gate "barrier" [0], Op.measure 0 1] := by decide

/-- C3: at the failing input (one qubit, no measurement), the circuit
handed to execution carries two classical bits spread over two registers,
so the counts keys of the success response range over 2 classical bits
split into two register groups, never over binary strings whose length is
the qubit count 1. -/
theorem normalizer_doubles_classical_bits_eval :
    exC2.numQubits = 1 ∧
    Circuit.numClbits (normalizeForSampling exC2).1 = 2 ∧
    (normalizeForSampling exC2).1.cregs.length = 2 := by decide

/-- C4: a circuit that already contains a measurement passes through the
normalization of /simulate unchanged; the warning flag is set exactly when
the classical-bit count is at most the highest measured classical-bit
index; and the request is never rejected for it: with such a parsed
circuit the handler never answers 400. -/
theorem measured_circuit_passthrough_and_warning (c : Circuit)
    (h : hasMeasureOps c = true) :
    (normalizeForSampling c).1 = c ∧
    ((normalizeForSampling c).2 = true ↔ (c.numClbits : Int) ≤ maxClbitMeasured c) ∧
    (∀ (cfg : Config) (parse : String → Except String Circuit) (svc : RemoteService)
      (localRun : Circuit → Nat → Except String (List (String × Int)))
      (body : ReqBody) (qasm msg : String),
      body.qasm = some qasm → parse qasm = Except.ok c →
      simulate_circuit cfg parse svc localRun (some body) ≠ SimResponse.badRequest msg) := by
  have hnn : 0 ≤ maxClbitMeasured c := maxClbitMeasured_nonneg c h
  refine ⟨?_, ?_, ?_⟩
  · simp [normalizeForSampling, h]
  · simp only [normalizeForSampling, h, if_true]
    unfold measureWarning
    constructor
    · intro hw
      rcases Bool.and_eq_true_iff.mp hw with ⟨_, h2⟩
      exact of_decide_eq_true h2
    · intro hle
      refine Bool.and_eq_true_iff.mpr ⟨decide_eq_true ?_, decide_eq_true hle⟩
      omega
  · intro cfg parse svc localRun body qasm msg hq hp
    simp only [simulate_circuit, hq, hp]
    split
    · rename_i hflag
      cases hrb : remoteBlock svc (normalizeForSampling c).1
          (body.backend.getD "ibmq_qasm_simulator") (body.shots.getD 1024) with
      | ok resp =>
        obtain ⟨p, hpshape⟩ := remoteBlock_ok_shape svc (normalizeForSampling c).1
          (body.backend.getD "ibmq_qasm_simulator") (body.shots.getD 1024) resp hrb
        simp [hrb, hpshape]
      | error e =>
        simp only [hrb]
        exact localPath_ne_badRequest localRun (normalizeForSampling c).1
          (body.shots.getD 1024) msg
    · exact localPath_ne_badRequest localRun (normalizeForSampling c).1
        (body.shots.getD 1024) msg

/-- C1: with the remote service configured and simulators flagged
available, an error anywhere in the remote block (backend resolution, the
simulator listing, transpilation, submission or result retrieval) makes
/simulate fall through to the local path; the remote error never shapes the
response, and when local execution succeeds the answer is HTTP 200 with
backend_used local_aer_simulator. -/
theorem remote_failure_falls_back_to_local (cfg : Config)
    (parse : String → Except String Circuit) (svc : RemoteService)
    (localRun : Circuit → Nat → Except String (List (String × Int)))
    (body : ReqBody) (qasm : String) (circuit0 : Circuit) (e : String)
    (hs : cfg.serviceConfigured = true) (ha : cfg.simsAvailable = true)
    (hq : body.qasm = some qasm) (hp : parse qasm = Except.ok circuit0)
    (hr : remoteBlock svc (normalizeForSampling circuit0).1
      (body.backend.getD "ibmq_qasm_simulator") (body.shots.getD 1024) = Except.error e) :
    simulate_circuit cfg parse svc localRun (some body) =
      localPath localRun (normalizeForSampling circuit0).1 (body.shots.getD 1024) ∧
    (∀ cs, localRun (normalizeForSampling circuit0).1 (body.shots.getD 1024) = Except.ok cs →
      simulate_circuit cfg parse svc localRun (some body) =
        SimResponse.ok
          { message := "Simulation successful (Local Aer)!", jobId := none,
            backendUsed := "local_aer_simulator", shots := body.shots.getD 1024,
            counts := cs } ∧
      (simulate_circuit cfg parse svc localRun (some body)).status = 200) := by
  have hmain : simulate_circuit cfg parse svc localRun (some body) =
      localPath localRun (normalizeForSampling circuit0).1 (body.shots.getD 1024) := by
    simp only [simulate_circuit, hq, hp, hs, ha, Bool.and_self, if_true, hr]
  refine ⟨hmain, ?_⟩
  intro cs hcs
  rw [hmain]
  unfold localPath
  rw [hcs]
  exact ⟨rfl, rfl⟩

/-- C6: when the service flag is unset or no remote simulator is flagged
available, the /simulate handler never touches the remote service (its
response is invariant under replacing the whole remote service) and, once
the circuit parses, the response is exactly that of direct local
execution. -/
theorem remote_unavailable_uses_local_only (cfg : Config)
    (parse : String → Except String Circuit) (svc svcOther : RemoteService)
    (localRun : Circuit → Nat → Except String (List (String × Int)))
    (req : Option ReqBody)
    (h : cfg.serviceConfigured = false ∨ cfg.simsAvailable = false) :
    simulate_circuit cfg parse svc localRun req =
      simulate_circuit cfg parse svcOther localRun req ∧
    (∀ (body : ReqBody) (qasm : String) (circuit0 : Circuit),
      req = some body → body.qasm = some qasm → parse qasm = Except.ok circuit0 →
      simulate_circuit cfg parse svc localRun req =
        localPath localRun (normalizeForSampling circuit0).1 (body.shots.getD 1024)) := by
  have hflag : (cfg.serviceConfigured && cfg.simsAvailable) = false := by
    rcases h with h | h <;> simp [h]
  constructor
  · cases req with
    | none => rfl
    | some body =>
      cases hq : body.qasm with
      | none => simp only [simulate_circuit, hq]
      | some qasm =>
        cases hp : parse qasm with
        | error e => simp only [simulate_circuit, hq, hp]
        | ok c0 => simp only [simulate_circuit, hq, hp, hflag, Bool.false_eq_true, if_false]
  · intro body qasm c0 hreq hq hp
    subst hreq
    simp only [simulate_circuit, hq, hp, hflag, Bool.false_eq_true, if_false]

/-- C9: whenever the local path actually runs (because remote execution is
unavailable or its block failed) and local execution raises, /simulate
answers HTTP 500 whose error field carries the underlying message; nothing
further is attempted. -/
theorem local_failure_returns_500 (cfg : Config)
    (parse : String → Except String Circuit) (svc : RemoteService)
    (localRun : Circuit → Nat → Except String (List (String × Int)))
    (body : ReqBody) (qasm : String) (circuit0 : Circuit) (e : String)
    (hq : body.qasm = some qasm) (hp : parse qasm = Except.ok circuit0)
    (hnr : cfg.serviceConfigured = false ∨ cfg.simsAvailable = false ∨
      ∃ msg, remoteBlock svc (normalizeForSampling circuit0).1
        (body.backend.getD "ibmq_qasm_simulator") (body.shots.getD 1024) = Except.error msg)
    (hl : localRun (normalizeForSampling circuit0).1 (body.shots.getD 1024) =
      Except.error e) :
    simulate_circuit cfg parse svc localRun (some body) =
      SimResponse.serverError ("Error during local Aer simulation: " ++ e) ∧
    (simulate_circuit cfg parse svc localRun (some body)).status = 500 := by
  have hmain : simulate_circuit cfg parse svc localRun (some body) =
      localPath localRun (normalizeForSampling circuit0).1 (body.shots.getD 1024) := by
    rcases hnr with h | h | ⟨msg, hmsg⟩
    · have hflag : (cfg.serviceConfigured && cfg.simsAvailable) = false := by simp [h]
      simp only [simulate_circuit, hq, hp, hflag, Bool.false_eq_true, if_false]
    · have hflag : (cfg.serviceConfigured && cfg.simsAvailable) = false := by simp [h]
      simp only [simulate_circuit, hq, hp, hflag, Bool.false_eq_true, if_false]
    · simp only [simulate_circuit, hq, hp, hmsg]
      split <;> rfl
  have hloc : localPath localRun (normalizeForSampling circuit0).1 (body.shots.getD 1024) =
      SimResponse.serverError ("Error during local Aer simulation: " ++ e) := by
    unfold localPath
    rw [hl]
  rw [hmain, hloc]
  exact ⟨rfl, rfl⟩

/-- When every remote step succeeds, the remote block returns the IBM
Quantum success response built from the shaped counts. -/
theorem remoteBlock_eq_ok (svc : RemoteService) (circuit : Circuit)
    (requestedName : String) (shots : Nat) (name : String) (tc : TranspiledCircuit)
    (jid : String) (res : RemoteResult)
    (hres : resolveBackendName svc requestedName = Except.ok name)
    (htr : svc.transpileTo circuit name = Except.ok tc)
    (hrun : svc.runJob tc shots = Except.ok (jid, res)) :
    remoteBlock svc circuit requestedName shots =
      Except.ok (SimResponse.ok
        { message := "Simulation successful (IBM Quantum)!", jobId := some jid,
          backendUsed := name, shots := shots,
          counts := shapeRemoteCounts res tc.numClbits circuit.numQubits shots }) := by
  unfold remoteBlock
  simp only [hres, htr, hrun]

/-- C10: when the remote job and its result retrieval succeed but the
result exposes no non-empty quasi-probability distribution, no get_counts
method and no list-of-data-with-counts shape, /simulate still answers HTTP
200 with the IBM Quantum message, the job id, and an empty counts
mapping. -/
theorem empty_remote_result_empty_counts (cfg : Config)
    (parse : String → Except String Circuit) (svc : RemoteService)
    (localRun : Circuit → Nat → Except String (List (String × Int)))
    (body : ReqBody) (qasm : String) (circuit0 : Circuit) (name : String)
    (tc : TranspiledCircuit) (jid : String) (res : RemoteResult)
    (hs : cfg.serviceConfigured = true) (ha : cfg.simsAvailable = true)
    (hq : body.qasm = some qasm) (hp : parse qasm = Except.ok circuit0)
    (hres : resolveBackendName svc (body.backend.getD "ibmq_qasm_simulator") = Except.ok name)
    (htr : svc.transpileTo (normalizeForSampling circuit0).1 name = Except.ok tc)
    (hrun : svc.runJob tc (body.shots.getD 1024) = Except.ok (jid, res))
    (hqd : res.quasiDists = none ∨ res.quasiDists = some [])
    (hgc : res.countsFromGetCounts = none) (hld : res.countsFromListData = none) :
    simulate_circuit cfg parse svc localRun (some body) =
      SimResponse.ok
        { message := "Simulation successful (IBM Quantum)!", jobId := some jid,
          backendUsed := name, shots := body.shots.getD 1024, counts := [] } ∧
    (simulate_circuit cfg parse svc localRun (some body)).status = 200 := by
  have hshape : shapeRemoteCounts res tc.numClbits
      (normalizeForSampling circuit0).1.numQubits (body.shots.getD 1024) = [] := by
    unfold shapeRemoteCounts
    rcases hqd with h | h <;> simp only [h, hgc, hld]
  have hrb := remoteBlock_eq_ok svc (normalizeForSampling circuit0).1
    (body.backend.getD "ibmq_qasm_simulator") (body.shots.getD 1024) name tc jid res
    hres htr hrun
  rw [hshape] at hrb
  have hmain : simulate_circuit cfg parse svc localRun (some body) =
      SimResponse.ok
        { message := "Simulation successful (IBM Quantum)!", jobId := some jid,
          backendUsed := name, shots := body.shots.getD 1024, counts := [] } := by
    simp only [simulate_circuit, hq, hp, hs, ha, Bool.and_self, if_true, hrb]
  rw [hmain]
  exact ⟨rfl, rfl⟩

/-- C5 (amended): when the remote result carries a non-empty quasi-dists
list and the rendering width is positive, each entry (k, p) of the first
distribution becomes a counts entry whose key is k in binary padded to
width equal to the transpiled classical-bit count (or the original qubit
count if that is zero) and whose value is p times the shot count truncated
toward zero by int(), in the HTTP 200 response of /simulate. -/
theorem quasi_counts_truncation (cfg : Config)
    (parse : String → Except String Circuit) (svc : RemoteService)
    (localRun : Circuit → Nat → Except String (List (String × Int)))
    (body : ReqBody) (qasm : String) (circuit0 : Circuit) (name : String)
    (tc : TranspiledCircuit) (jid : String) (res : RemoteResult)
    (dist : List (Nat × ℚ)) (rest : List (List (Nat × ℚ)))
    (hs : cfg.serviceConfigured = true) (ha : cfg.simsAvailable = true)
    (hq : body.qasm = some qasm) (hp : parse qasm = Except.ok circuit0)
    (hres : resolveBackendName svc (body.backend.getD "ibmq_qasm_simulator") = Except.ok name)
    (htr : svc.transpileTo (normalizeForSampling circuit0).1 name = Except.ok tc)
    (hrun : svc.runJob tc (body.shots.getD 1024) = Except.ok (jid, res))
    (hqd : res.quasiDists = some (dist :: rest))
    (hw : 0 < (if tc.numClbits > 0 then tc.numClbits else circuit0.numQubits)) :
    simulate_circuit cfg parse svc localRun (some body) =
      SimResponse.ok
        { message := "Simulation successful (IBM Quantum)!", jobId := some jid,
          backendUsed := name, shots := body.shots.getD 1024,
          counts := dist.map (fun kv =>
            (formatBin kv.1 (if tc.numClbits > 0 then tc.numClbits else circuit0.numQubits),
             pyInt (kv.2 * ((body.shots.getD 1024 : Nat) : ℚ)))) } := by
  have hnq : (normalizeForSampling circuit0).1.numQubits = circuit0.numQubits :=
    normalizeForSampling_numQubits circuit0
  have hshape : shapeRemoteCounts res tc.numClbits
      (normalizeForSampling circuit0).1.numQubits (body.shots.getD 1024) =
      dist.map (fun kv =>
        (formatBin kv.1 (if tc.numClbits > 0 then tc.numClbits else circuit0.numQubits),
         pyInt (kv.2 * ((body.shots.getD 1024 : Nat) : ℚ)))) := by
    unfold shapeRemoteCounts
    simp only [hqd, hnq]
    rw [if_pos hw]
  have hrb := remoteBlock_eq_ok svc (normalizeForSampling circuit0).1
    (body.backend.getD "ibmq_qasm_simulator") (body.shots.getD 1024) name tc jid res
    hres htr hrun
  rw [hshape] at hrb
  simp only [simulate_circuit, hq, hp, hs, ha, Bool.and_self, if_true, hrb]

/-- C7: posting no JSON body or a body without the qasm field to any of
the three endpoints answers HTTP 400 with an error field; on /simulate a
body whose qasm fails to parse also answers 400, and omitted shots and
backend fields behave exactly as shots 1024 and the sentinel backend name
ibmq_qasm_simulator. -/
theorem missing_qasm_field_and_defaults (cfg : Config)
    (parse : String → Except String Circuit) (svc : RemoteService)
    (localRun : Circuit → Nat → Except String (List (String × Int)))
    (engineSV : Circuit → Except String (List (ℚ × ℚ)))
    (engineP : Circuit → Except String (List (String × ℚ))) :
    (simulate_circuit cfg parse svc localRun none).status = 400 ∧
    (simulate_circuit cfg parse svc localRun none).hasErrorField = true ∧
    (∀ body : ReqBody, body.qasm = none →
      (simulate_circuit cfg parse svc localRun (some body)).status = 400 ∧
      (simulate_circuit cfg parse svc localRun (some body)).hasErrorField = true) ∧
    (get_statevector parse engineSV none).status = 400 ∧
    (get_statevector parse engineSV none).hasErrorField = true ∧
    (∀ b : SVBody, b.qasm = none →
      (get_statevector parse engineSV (some b)).status = 400 ∧
      (get_statevector parse engineSV (some b)).hasErrorField = true) ∧
    (get_probabilities parse engineP none).status = 400 ∧
    (get_probabilities parse engineP none).hasErrorField = true ∧
    (∀ b : SVBody, b.qasm = none →
      (get_probabilities parse engineP (some b)).status = 400 ∧
      (get_probabilities parse engineP (some b)).hasErrorField = true) ∧
    (∀ (body : ReqBody) (qasm e : String), body.qasm = some qasm →
      parse qasm = Except.error e →
      simulate_circuit cfg parse svc localRun (some body) =
        SimResponse.badRequest ("Invalid QASM input: " ++ e)) ∧
    (∀ qasm : String,
      simulate_circuit cfg parse svc localRun
        (some { qasm := some qasm, shots := none, backend := none }) =
      simulate_circuit cfg parse svc localRun
        (some { qasm := some qasm, shots := some 1024,
                backend := some "ibmq_qasm_simulator" })) := by
  refine ⟨rfl, rfl, ?_, rfl, rfl, ?_, rfl, rfl, ?_, ?_, ?_⟩
  · intro body hq
    simp only [simulate_circuit, hq]
    exact ⟨rfl, rfl⟩
  · intro b hq
    simp only [get_statevector, hq]
    exact ⟨rfl, rfl⟩
  · intro b hq
    simp only [get_probabilities, hq]
    exact ⟨rfl, rfl⟩
  · intro body qasm e hq hp
    simp only [simulate_circuit, hq, hp]
  · intro qasm
    rfl

/-- C8: on both amplitude endpoints, once the circuit parses, a qubit
count of zero or of seventeen or more answers HTTP 400 (the stripping of
trailing measurements never changes the qubit count), while a qubit count
between one and the ceiling sixteen is accepted: with the external engine
succeeding the answer is HTTP 200. -/
theorem amplitude_endpoints_qubit_ceiling
    (parse : String → Except String Circuit)
    (engineSV : Circuit → Except String (List (ℚ × ℚ)))
    (engineP : Circuit → Except String (List (String × ℚ)))
    (body : SVBody) (qasm : String) (c : Circuit)
    (hq : body.qasm = some qasm) (hp : parse qasm = Except.ok c) :
    ((c.numQubits = 0 ∨ 17 ≤ c.numQubits) →
      (get_statevector parse engineSV (some body)).status = 400 ∧
      (get_probabilities parse engineP (some body)).status = 400) ∧
    (1 ≤ c.numQubits → c.numQubits ≤ 16 →
      (∀ sv, engineSV (stripTrailingMeasurements c) = Except.ok sv →
        (get_statevector parse engineSV (some body)).status = 200) ∧
      (∀ pr, engineP (stripTrailingMeasurements c) = Except.ok pr →
        (get_probabilities parse engineP (some body)).status = 200)) := by
  have hnq : (stripTrailingMeasurements c).numQubits = c.numQubits := rfl
  constructor
  · intro hbig
    have hcond : (decide ((stripTrailingMeasurements c).numQubits = 0) ||
        decide ((stripTrailingMeasurements c).numQubits > 16)) = true := by
      rw [hnq]
      rcases hbig with h0 | h17
      · simp [h0]
      · simp only [Bool.or_eq_true, decide_eq_true_iff]
        right
        omega
    constructor
    · simp only [get_statevector, hq, hp, hcond, if_true]
      rfl
    · simp only [get_probabilities, hq, hp, hcond, if_true]
      rfl
  · intro h1 h16
    have hcond : (decide ((stripTrailingMeasurements c).numQubits = 0) ||
        decide ((stripTrailingMeasurements c).numQubits > 16)) = false := by
      rw [hnq]
      simp only [Bool.or_eq_false_iff, decide_eq_false_iff_not]
      omega
    constructor
    · intro sv hsv
      simp only [get_statevector, hq, hp, hcond, Bool.false_eq_true, if_false, hsv]
      rfl
    · intro pr hpr
      simp only [get_probabilities, hq, hp, hcond, Bool.false_eq_true, if_false, hpr]
      rfl

/-- C5 counterexample: at shot count 1 with quasi-probability 7/10 on basis
state 0 and one transpiled classical bit, the handler answers the count
int(0.7) = 0, while the conversion as the claim words it (p times S rounded
to an integer count) demands 1. -/
theorem quasi_counts_rounding_counterexample :
    simulate_circuit (Config.mk true true) parseMeas1 svcQuasi localBoom (some reqQuasi) =
      SimResponse.ok
        { message := "Simulation successful (IBM Quantum)!", jobId := some "job1",
          backendUsed := "ibm_sim", shots := 1, counts := [("0", 0)] } ∧
    claimedRemoteCounts [(0, (7 : ℚ)/10)] 1 1 1 = [("0", 1)] ∧
    [("0", (0 : ℤ))] ≠ claimedRemoteCounts [(0, (7 : ℚ)/10)] 1 1 1 := by
  with_unfolding_all decide

/-- Witness for C1 at a concrete input: remote configured and flagged
available, every remote call failing, local succeeding. -/
theorem remote_failure_fallback_instance :
    simulate_circuit (Config.mk true true) parseExC2 svcDown localOk (some reqBare) =
      SimResponse.ok
        { message := "Simulation successful (Local Aer)!", jobId := none,
          backendUsed := "local_aer_simulator", shots := 1024,
          counts := [("1", 1024)] } :=
  ((remote_failure_falls_back_to_local (Config.mk true true) parseExC2 svcDown localOk
      reqBare "q" exC2 "network error" rfl rfl rfl rfl rfl).2 [("1", 1024)] rfl).1

/-- Witness for C4 at a concrete input: a circuit measuring into bit 5
while holding one classical bit passes through unchanged with the warning
flagged. -/
theorem measured_circuit_warning_instance :
    (normalizeForSampling exWarn).1 = exWarn ∧ (normalizeForSampling exWarn).2 = true :=
  ⟨(measured_circuit_passthrough_and_warning exWarn rfl).1,
   ((measured_circuit_passthrough_and_warning exWarn rfl).2.1).mpr (by decide)⟩

/-- Witness for the amended C5 at a concrete input: the quasi-probability
7/10 at one shot becomes the truncated count 0. -/
theorem quasi_counts_truncation_instance :
    simulate_circuit (Config.mk true true) parseMeas1 svcQuasi localBoom (some reqQuasi) =
      SimResponse.ok
        { message := "Simulation successful (IBM Quantum)!", jobId := some "job1",
          backendUsed := "ibm_sim", shots := 1, counts := [("0", 0)] } :=
  (quasi_counts_truncation (Config.mk true true) parseMeas1 svcQuasi localBoom reqQuasi
      "q" exMeas1 "ibm_sim" (TranspiledCircuit.mk 1) "job1" resQuasi
      [(0, (7 : ℚ)/10)] [] rfl rfl rfl rfl rfl rfl rfl rfl (by decide)).trans
    (by with_unfolding_all decide)

/-- Witness for C6 at a concrete input: with the service flag unset the
response does not depend on the remote service. -/
theorem remote_unavailable_instance :
    simulate_circuit (Config.mk false true) parseExC2 svcDown localOk (some reqBare) =
      simulate_circuit (Config.mk false true) parseExC2 svcQuasi localOk (some reqBare) :=
  (remote_unavailable_uses_local_only (Config.mk false true) parseExC2 svcDown svcQuasi
      localOk (some reqBare) (Or.inl rfl)).1

/-- Witness for C7 at a concrete input: a missing body answers 400. -/
theorem missing_qasm_field_instance :
    (simulate_circuit (Config.mk false false) parseExC2 svcDown localOk none).status = 400 :=
  (missing_qasm_field_and_defaults (Config.mk false false) parseExC2 svcDown localOk
      svFail prFail).1

/-- Witness for C8 at a concrete input: a seventeen-qubit circuit is
rejected with 400 by both amplitude endpoints. -/
theorem amplitude_endpoints_ceiling_instance :
    (get_statevector parse17 svFail (some bodyQ)).status = 400 ∧
    (get_probabilities parse17 prFail (some bodyQ)).status = 400 :=
  (amplitude_endpoints_qubit_ceiling parse17 svFail prFail bodyQ "q" c17 rfl rfl).1
    (Or.inr (by decide))

/-- Witness for C9 at a concrete input: remote unavailable and local
raising gives the 500 carrying the message. -/
theorem local_failure_500_instance :
    simulate_circuit (Config.mk false false) parseExC2 svcDown localBoom (some reqBare) =
      SimResponse.serverError ("Error during local Aer simulation: " ++ "boom") :=
  (local_failure_returns_500 (Config.mk false false) parseExC2 svcDown localBoom reqBare
      "q" exC2 "boom" rfl rfl (Or.inl rfl) rfl).1

/-- Witness for C10 at a concrete input: a successful remote job whose
result has no counts shape still answers 200 with empty counts. -/
theorem empty_remote_result_instance :
    simulate_circuit (Config.mk true true) parseExC2 svcBare localBoom (some reqBare) =
      SimResponse.ok
        { message := "Simulation successful (IBM Quantum)!", jobId := some "job2",
          backendUsed := "ibm_sim", shots := 1024, counts := [] } :=
  (empty_remote_result_empty_counts (Config.mk true true) parseExC2 svcBare localBoom
      reqBare "q" exC2 "ibm_sim" (TranspiledCircuit.mk 2) "job2" resBare
      rfl rfl rfl rfl rfl rfl rfl (Or.inl rfl) rfl rfl).1
